import Mathlib

/-!
# Verification of the SEO page-analysis client core

Shallow embedding of the audit client (`web/lib/api.ts`) and the page
orchestration / result-normalization logic (`web/app/page.tsx`) of the
SEO page-analysis repository, together with proofs of the specified
properties: score banding, checklist classification and priority
bucketing, the audit polling lifecycle, and the session-guard
behaviour on unauthorized responses.
-/

namespace SeoAnalyze

/-! ## Data model (from `page.tsx` types and `api.ts` exported types) -/

structure Issue where
  key : String
  title : String
  details : String
  severity : String
  fix_suggestion : String
  priority_score : Int
deriving DecidableEq

structure Recommendation where
  title : String
  reason : String
  action : String
  bucket : String
deriving DecidableEq

/-- One entry of the raw audit checklist as delivered by the backend. -/
structure ChecklistEntry where
  key : String
  label : String
  target : String
  value : String
  passed : Bool
  priority : String
deriving DecidableEq

/-- One entry of the UI-side checklist (`ChecklistItem` in `page.tsx`):
the same data with `passed` renamed to `pass` by `technicalChecklist`. -/
structure ChecklistItem where
  key : String
  label : String
  target : String
  value : String
  pass : Bool
  priority : String
deriving DecidableEq

/-- Raw payload returned by `GET /audits/{id}/results`; `checklist` may be
absent (`data.checklist ?? []` in the source). -/
structure RawData where
  score : Int
  issues : List Issue
  recommendations : List Recommendation
  checklist : Option (List ChecklistEntry)
  metrics : Option (List (String × Int))
deriving DecidableEq

/-- The `ResultState` stored by `setResult` after a completed audit. -/
structure ResultState where
  score : Int
  issues : List Issue
  recommendations : List Recommendation
  checklist : List ChecklistEntry
  metrics : Option (List (String × Int))
deriving DecidableEq

/-- `setResult({score: data.score, issues: data.issues, recommendations:
data.recommendations, checklist: data.checklist ?? [], metrics: data.metrics})`. -/
def storeResult (data : RawData) : ResultState :=
  { score := data.score
    issues := data.issues
    recommendations := data.recommendations
    checklist := data.checklist.getD []
    metrics := data.metrics }

/-! ## The not-measured sentinel (`isNotMeasured` in `page.tsx`)

JavaScript's `String.prototype.includes` is substring containment; we
embed it as an executable scan over character lists and prove it
equivalent to `List.IsInfix`. -/

/-- `needle` occurs at the very start of `hay` (the leading test done at
each position of a substring scan). -/
def charsHasPre : List Char → List Char → Bool
  | [], _ => true
  | _ :: _, [] => false
  | a :: as, b :: bs => a == b && charsHasPre as bs

/-- `needle` occurs somewhere inside `hay`: the scan behind
`String.prototype.includes`. -/
def charsHasSub (needle : List Char) : List Char → Bool
  | [] => needle.isEmpty
  | c :: rest => charsHasPre needle (c :: rest) || charsHasSub needle rest

/-- `hay.includes(needle)` on strings. -/
def strIncludes (hay needle : String) : Bool :=
  charsHasSub needle.toList hay.toList

/-- `isNotMeasured` from `page.tsx`: lower-case the value and test the two
known markers as substrings. -/
def isNotMeasured (value : String) : Bool :=
  let normalized := value.toLower
  strIncludes normalized "n/a" || strIncludes normalized "nepamatuota"

/-! ## Score band (`badge` in `page.tsx`) -/

/-- The `badge` memo: `"-"` with no result, otherwise banded by score. -/
def badge : Option ResultState → String
  | none => "-"
  | some result =>
      if result.score ≥ 80 then "Good"
      else if result.score ≥ 60 then "Needs work"
      else "Critical"

/-! ## Checklist normalization (`technicalChecklist`, counts, grouping) -/

/-- The `technicalChecklist` memo: `[]` with no result, otherwise the
field-for-field repackaging of the stored checklist. -/
def technicalChecklist : Option ResultState → List ChecklistItem
  | none => []
  | some result =>
      result.checklist.map fun item =>
        { key := item.key
          label := item.label
          target := item.target
          value := item.value
          pass := item.passed
          priority := item.priority }

/-- `checklistPassedCount`: number of items whose `pass` flag is set. -/
def checklistPassedCount (items : List ChecklistItem) : Nat :=
  (items.filter fun item => item.pass).length

/-- `checklistTotal = technicalChecklist.length || 20` — JavaScript `||`
falls back to 20 exactly when the length is 0. -/
def checklistTotal (items : List ChecklistItem) : Nat :=
  if items.length = 0 then 20 else items.length

/-- The three remediation buckets produced by `groupedChecklist`. -/
structure Grouped where
  do_now : List ChecklistItem
  this_week : List ChecklistItem
  later : List ChecklistItem
deriving DecidableEq

/-- `groupedChecklist`: failed, measured items grouped by `priority`. -/
def groupedChecklist (items : List ChecklistItem) : Grouped :=
  { do_now := items.filter fun item =>
      !item.pass && !isNotMeasured item.value && item.priority == "do_now"
    this_week := items.filter fun item =>
      !item.pass && !isNotMeasured item.value && item.priority == "this_week"
    later := items.filter fun item =>
      !item.pass && !isNotMeasured item.value && item.priority == "later" }

/-- The PASS / FAIL / N/A tag rendered for one checklist row
(`isNotMeasured(item.value) ? "N/A" : item.pass ? "PASS" : "FAIL"`). -/
def displayState (item : ChecklistItem) : String :=
  if isNotMeasured item.value then "N/A"
  else if item.pass then "PASS"
  else "FAIL"

/-! ## Audit client (`web/lib/api.ts`)

Network responses are modelled by their HTTP status plus an optional
parsed JSON body (`none` when `response.json()` rejects), and the
ambient `seo_token` localStorage slot by an `Option String` threaded
explicitly. -/

/-- A JSON value, enough to model the error bodies the client inspects. -/
inductive Json where
  | str (s : String)
  | num (n : Int)
  | bool (b : Bool)
  | null
  | arr (items : List Json)
  | obj (fields : List (String × Json))

/-- Field lookup on a JSON value: `data?.name` — `none` when the value is
not an object or lacks the field. -/
def Json.getField : Json → String → Option Json
  | .obj fields, name =>
      match fields.find? (fun f => f.1 == name) with
      | some f => some f.2
      | none => none
  | _, _ => none

/-- `Response.ok`: status in the 2xx range. -/
def respOk (status : Nat) : Bool :=
  200 ≤ status && status < 300

/-- `clearTokenIfUnauthorized`: remove the `seo_token` slot exactly when
the response status is 401; a pure total function on the token state
(the source's `localStorage.removeItem` cannot fail). -/
def clearTokenIfUnauthorized (status : Nat) (token : Option String) : Option String :=
  if status = 401 then none else token

/-- `readError`: extract a human-readable message from an error body,
preferring a string `detail`, then the `msg` of the first element of a
`detail` list, with the operation's fixed `fallback` otherwise (also
when the body failed to parse). -/
def readError (body : Option Json) (fallback : String) : String :=
  match body with
  | none => fallback
  | some data =>
      match data.getField "detail" with
      | some (.str s) => s
      | some (.arr (first :: _)) =>
          match first.getField "msg" with
          | some (.str m) => m
          | _ => fallback
      | _ => fallback

/-- `authHeaders`: JSON content type, plus a bearer `Authorization` header
exactly when a token is held. -/
def authHeaders (token : Option String) : List (String × String) :=
  match token with
  | none => [("Content-Type", "application/json")]
  | some t => [("Content-Type", "application/json"), ("Authorization", "Bearer " ++ t)]

/-- One observed HTTP response: status plus the parsed body when the body
parses as JSON. -/
structure HttpResp where
  status : Nat
  body : Option Json

/-- Token state after any of the six privileged operations
(`createProject`, `createSchedule`, `startAudit`, `getAuditStatus`,
`getAuditResults`, `getAdminUsersOverview`): on a non-ok response the
client calls `clearTokenIfUnauthorized` before throwing. -/
def privilegedTokenAfter (resp : HttpResp) (token : Option String) : Option String :=
  if respOk resp.status then token else clearTokenIfUnauthorized resp.status token

/-- What a privileged operation resolves to: the decoded success payload,
or a thrown `Error` whose message comes from `readError` with the
operation's fixed default. -/
def privilegedOutcome {α : Type} (resp : HttpResp) (fallback : String)
    (payload : α) : Except String α :=
  if respOk resp.status then .ok payload
  else .error (readError resp.body fallback)

/-- `register`: calls `clearTokenIfUnauthorized` unconditionally. -/
def registerTokenAfter (resp : HttpResp) (token : Option String) : Option String :=
  clearTokenIfUnauthorized resp.status token

/-- `register` resolves unless the response is non-ok with a status other
than 409 (`if (!response.ok && response.status !== 409) throw`). -/
def registerOutcome (resp : HttpResp) : Except String Unit :=
  if !respOk resp.status && resp.status ≠ 409 then
    .error (readError resp.body "Failed to register user")
  else .ok ()

/-- `login` token effect: store the access token on success, otherwise
call `clearTokenIfUnauthorized` before throwing. -/
def loginTokenAfter (resp : HttpResp) (accessToken : String)
    (token : Option String) : Option String :=
  if respOk resp.status then some accessToken
  else clearTokenIfUnauthorized resp.status token

/-- `login` outcome: the stored access token, or the extracted error. -/
def loginOutcome (resp : HttpResp) (accessToken : String) : Except String String :=
  if respOk resp.status then .ok accessToken
  else .error (readError resp.body "Failed to login")

/-! ## Audit lifecycle orchestrator (`runAnalysis` in `page.tsx`)

The remote service is modelled by a scripted environment: the outcome
of each setup call, the successive answers of `getAuditStatus`, and the
outcome of `getAuditResults`.  `runAnalysis` returns `none` when the
status script runs out while the audit is still non-terminal (the
source's unbounded loop would keep polling past the script). -/

structure Project where
  id : String
  name : String
  base_url : String
deriving DecidableEq

structure ScheduleItem where
  id : String
  project_id : String
  url : String
  weekday : Int
  hour_utc : Int
  minute_utc : Int
  enabled : Bool
deriving DecidableEq

/-- `AuditStatus` payload of `startAudit` / `getAuditStatus`. -/
structure AuditStatusResp where
  audit_id : String
  status : String
deriving DecidableEq

/-- Result of the polling `while` loop: the terminal status reached with
the statuses emitted by `setStatus` inside the loop and the number of
`getAuditStatus` calls issued, or the exception thrown by a poll. -/
inductive LoopRes where
  | done (final : String) (emitted : List String) (calls : Nat)
  | threw (msg : String) (emitted : List String) (calls : Nat)
deriving DecidableEq

/-- `while (currentStatus === "queued" || currentStatus === "running")`:
each iteration waits, issues one `getAuditStatus`, and publishes the
fresh status.  `none` when the script is exhausted mid-loop. -/
def pollLoop (cur : String) (script : List (Except String AuditStatusResp)) :
    Option LoopRes :=
  if cur = "queued" || cur = "running" then
    match script with
    | [] => none
    | .error msg :: _ => some (.threw msg [] 1)
    | .ok fresh :: rest =>
        match pollLoop fresh.status rest with
        | none => none
        | some (.done final emitted calls) =>
            some (.done final (fresh.status :: emitted) (calls + 1))
        | some (.threw msg emitted calls) =>
            some (.threw msg (fresh.status :: emitted) (calls + 1))
  else some (.done cur [] 0)

/-- Scripted environment for one `runAnalysis` invocation. -/
structure Env where
  createProjectResp : Except String Project
  createScheduleResp : Except String ScheduleItem
  startAuditResp : Except String AuditStatusResp
  statusScript : List (Except String AuditStatusResp)
  resultsResp : Except String RawData

/-- Observable outcome of `runAnalysis`: every `setStatus` value in
order (starting with `"creating"`), the final `error` and `result`
state, the audit id, the number of `getAuditStatus` calls, and whether
`getAuditResults` was invoked. -/
structure RunResult where
  statuses : List String
  error : String
  result : Option ResultState
  auditId : String
  pollCalls : Nat
  resultFetched : Bool
deriving DecidableEq

/-- The fixed user-facing failure message of `runAnalysis`. -/
def failureMessage : String :=
  "Analize nepavyko. Patikrink URL ir bandyk dar karta."

/-- `runAnalysis`: create project and schedule, start the audit, poll to
a terminal status, then fetch the result on `completed` or set the
fixed failure message; any thrown error is caught, setting the error
message and status `"failed"`. -/
def runAnalysis (env : Env) : Option RunResult :=
  match env.createProjectResp with
  | .error msg =>
      some { statuses := ["creating", "failed"], error := msg, result := none,
             auditId := "", pollCalls := 0, resultFetched := false }
  | .ok _project =>
      match env.createScheduleResp with
      | .error msg =>
          some { statuses := ["creating", "failed"], error := msg, result := none,
                 auditId := "", pollCalls := 0, resultFetched := false }
      | .ok _schedule =>
          match env.startAuditResp with
          | .error msg =>
              some { statuses := ["creating", "failed"], error := msg, result := none,
                     auditId := "", pollCalls := 0, resultFetched := false }
          | .ok audit =>
              match pollLoop audit.status env.statusScript with
              | none => none
              | some (.threw msg emitted calls) =>
                  some { statuses := "creating" :: audit.status :: (emitted ++ ["failed"]),
                         error := msg, result := none, auditId := audit.audit_id,
                         pollCalls := calls, resultFetched := false }
              | some (.done final emitted calls) =>
                  if final = "completed" then
                    match env.resultsResp with
                    | .ok data =>
                        some { statuses := "creating" :: audit.status :: emitted,
                               error := "", result := some (storeResult data),
                               auditId := audit.audit_id, pollCalls := calls,
                               resultFetched := true }
                    | .error msg =>
                        some { statuses := ("creating" :: audit.status :: emitted) ++ ["failed"],
                               error := msg, result := none, auditId := audit.audit_id,
                               pollCalls := calls, resultFetched := true }
                  else
                    some { statuses := "creating" :: audit.status :: emitted,
                           error := failureMessage, result := none,
                           auditId := audit.audit_id, pollCalls := calls,
                           resultFetched := false }

/-! ## Auth flow (`handleAuth` in `page.tsx`) -/

/-- Scripted environment for one `handleAuth` invocation. -/
structure AuthEnv where
  registerResp : HttpResp
  loginResp : HttpResp
  accessToken : String

/-- Observable outcome of `handleAuth`: whether the `/auth/login` call
was issued, whether the session ended logged in, and the error shown. -/
structure AuthOutcome where
  loginIssued : Bool
  loggedIn : Bool
  error : String
deriving DecidableEq

/-- `handleAuth`: reject short passwords locally, then `register` followed
by `login`; a thrown register error prevents the login call. -/
def handleAuth (password : String) (env : AuthEnv) : AuthOutcome :=
  if password.length < 8 then
    { loginIssued := false, loggedIn := false,
      error := "Slaptazodis turi buti bent 8 simboliu." }
  else
    match registerOutcome env.registerResp with
    | .error msg => { loginIssued := false, loggedIn := false, error := msg }
    | .ok _ =>
        match loginOutcome env.loginResp env.accessToken with
        | .error msg => { loginIssued := true, loggedIn := false, error := msg }
        | .ok _ => { loginIssued := true, loggedIn := true, error := "" }

/-! ## Sample values used by witnesses -/

/-- A failed, measured `do_now` checklist item. -/
def wFail : ChecklistItem :=
  { key := "canonical", label := "Canonical", target := "present", value := "missing",
    pass := false, priority := "do_now" }

/-- A passed checklist item. -/
def wPass : ChecklistItem :=
  { key := "https", label := "HTTPS", target := "on", value := "on",
    pass := true, priority := "do_now" }

/-- A failed but not-measured checklist item. -/
def wNa : ChecklistItem :=
  { key := "lighthouse", label := "Lighthouse", target := "80", value := "N/A",
    pass := false, priority := "do_now" }

def projW : Project := { id := "p1", name := "Mano projektas", base_url := "https://example.com" }

def schedW : ScheduleItem :=
  { id := "s1", project_id := "p1", url := "https://example.com",
    weekday := 1, hour_utc := 8, minute_utc := 0, enabled := true }

/-- The result payload of the C2 scenario: score 72. -/
def rawC2 : RawData :=
  { score := 72, issues := [], recommendations := [],
    checklist := some [{ key := "canonical", label := "Canonical", target := "present",
                         value := "missing", passed := false, priority := "do_now" }],
    metrics := none }

/-- The scripted environment of the C2 scenario: `startAudit` answers
`queued`, the two polls answer `running` then `completed`, and the
result fetch answers `rawC2`. -/
def envC2 : Env :=
  { createProjectResp := .ok projW
    createScheduleResp := .ok schedW
    startAuditResp := .ok { audit_id := "a1", status := "queued" }
    statusScript := [.ok { audit_id := "a1", status := "running" },
                     .ok { audit_id := "a1", status := "completed" }]
    resultsResp := .ok rawC2 }

/-! ## Substring scan correctness -/

theorem charsHasPre_iff (n : List Char) : ∀ h : List Char,
    charsHasPre n h = true ↔ n <+: h := by
  induction n with
  | nil => intro h; simp [charsHasPre]
  | cons a as ih =>
      intro h
      cases h with
      | nil => simp [charsHasPre]
      | cons b bs =>
          simp [charsHasPre, List.cons_prefix_cons, ih, Bool.and_eq_true, beq_iff_eq]

theorem charsHasSub_iff (n : List Char) : ∀ h : List Char,
    charsHasSub n h = true ↔ n <:+: h := by
  intro h
  induction h with
  | nil => simp [charsHasSub, List.infix_nil, List.isEmpty_iff]
  | cons c rest ih =>
      simp [charsHasSub, List.infix_cons_iff, Bool.or_eq_true, charsHasPre_iff, ih]

theorem strIncludes_iff (hay needle : String) :
    strIncludes hay needle = true ↔ needle.toList <:+: hay.toList := by
  simp [strIncludes, charsHasSub_iff]

/-- `isNotMeasured` holds exactly when one of the two markers is a
substring of the lower-cased value. -/
theorem isNotMeasured_iff (value : String) :
    isNotMeasured value = true ↔
      ("n/a".toList <:+: value.toLower.toList ∨
       "nepamatuota".toList <:+: value.toLower.toList) := by
  simp [isNotMeasured, strIncludes_iff, Bool.or_eq_true]

/-! ## Claim theorems -/

/-- C1: each checklist entry belongs to a remediation bucket exactly when
it is in the list, failed, measured, and carries that bucket's priority;
consequently passed or not-measured entries are in no bucket and no
entry is in two buckets. -/
theorem bucket_membership (items : List ChecklistItem) (i : ChecklistItem) :
    (i ∈ (groupedChecklist items).do_now ↔
       i ∈ items ∧ i.pass = false ∧ isNotMeasured i.value = false ∧ i.priority = "do_now") ∧
    (i ∈ (groupedChecklist items).this_week ↔
       i ∈ items ∧ i.pass = false ∧ isNotMeasured i.value = false ∧ i.priority = "this_week") ∧
    (i ∈ (groupedChecklist items).later ↔
       i ∈ items ∧ i.pass = false ∧ isNotMeasured i.value = false ∧ i.priority = "later") ∧
    (i.pass = true → i ∉ (groupedChecklist items).do_now ∧
       i ∉ (groupedChecklist items).this_week ∧ i ∉ (groupedChecklist items).later) ∧
    (isNotMeasured i.value = true → i ∉ (groupedChecklist items).do_now ∧
       i ∉ (groupedChecklist items).this_week ∧ i ∉ (groupedChecklist items).later) ∧
    ¬(i ∈ (groupedChecklist items).do_now ∧ i ∈ (groupedChecklist items).this_week) ∧
    ¬(i ∈ (groupedChecklist items).do_now ∧ i ∈ (groupedChecklist items).later) ∧
    ¬(i ∈ (groupedChecklist items).this_week ∧ i ∈ (groupedChecklist items).later) := by
  have hmem : ∀ p : String,
      (i ∈ items.filter fun item =>
          !item.pass && !isNotMeasured item.value && item.priority == p) ↔
        i ∈ items ∧ i.pass = false ∧ isNotMeasured i.value = false ∧ i.priority = p := by
    intro p
    simp [List.mem_filter, Bool.and_eq_true, Bool.not_eq_true', and_assoc]
  have h1 := hmem "do_now"
  have h2 := hmem "this_week"
  have h3 := hmem "later"
  refine ⟨h1, h2, h3, ?_, ?_, ?_, ?_, ?_⟩
  · intro hp
    refine ⟨fun hx => ?_, fun hx => ?_, fun hx => ?_⟩
    · exact absurd ((h1.mp hx).2.1) (by simp [hp])
    · exact absurd ((h2.mp hx).2.1) (by simp [hp])
    · exact absurd ((h3.mp hx).2.1) (by simp [hp])
  · intro hp
    refine ⟨fun hx => ?_, fun hx => ?_, fun hx => ?_⟩
    · exact absurd ((h1.mp hx).2.2.1) (by simp [hp])
    · exact absurd ((h2.mp hx).2.2.1) (by simp [hp])
    · exact absurd ((h3.mp hx).2.2.1) (by simp [hp])
  · rintro ⟨ha, hb⟩
    have e1 := (h1.mp ha).2.2.2
    have e2 := (h2.mp hb).2.2.2
    exact absurd (e1 ▸ e2) (by decide)
  · rintro ⟨ha, hb⟩
    have e1 := (h1.mp ha).2.2.2
    have e2 := (h3.mp hb).2.2.2
    exact absurd (e1 ▸ e2) (by decide)
  · rintro ⟨ha, hb⟩
    have e1 := (h2.mp ha).2.2.2
    have e2 := (h3.mp hb).2.2.2
    exact absurd (e1 ▸ e2) (by decide)

/-- C1 witness: the characterization applied to a concrete one-item list. -/
theorem bucket_membership_witness :
    wFail ∈ (groupedChecklist [wFail]).do_now ↔
      wFail ∈ [wFail] ∧ wFail.pass = false ∧
        isNotMeasured wFail.value = false ∧ wFail.priority = "do_now" :=
  (bucket_membership [wFail] wFail).1

/-- C2: on the scripted trace (start answers `queued`, polls answer
`running` then `completed`, result has score 72) the published status
sequence is exactly `creating, queued, running, completed` and the
final band is `"Needs work"`. -/
theorem run_trace_c2 :
    (runAnalysis envC2).map RunResult.statuses =
        some ["creating", "queued", "running", "completed"] ∧
    (runAnalysis envC2).map (fun r => badge r.result) = some "Needs work" := by
  exact ⟨rfl, rfl⟩

/-- C3: the displayed band is `"Good"` iff the score is at least 80,
`"Needs work"` iff it is in `[60, 80)`, and `"Critical"` iff it is
below 60. -/
theorem badge_bands (r : ResultState) :
    (badge (some r) = "Good" ↔ 80 ≤ r.score) ∧
    (badge (some r) = "Needs work" ↔ 60 ≤ r.score ∧ r.score < 80) ∧
    (badge (some r) = "Critical" ↔ r.score < 60) := by
  by_cases h80 : 80 ≤ r.score
  · simp only [badge, if_pos h80]
    refine ⟨by simp [h80], ?_, ?_⟩
    · constructor
      · intro h; exact absurd h (by decide)
      · intro h; omega
    · constructor
      · intro h; exact absurd h (by decide)
      · intro h; omega
  · by_cases h60 : 60 ≤ r.score
    · simp only [badge, if_neg (by omega : ¬ r.score ≥ 80), if_pos (by omega : r.score ≥ 60)]
      refine ⟨?_, by simp [h60]; omega, ?_⟩
      · constructor
        · intro h; exact absurd h (by decide)
        · intro h; omega
      · constructor
        · intro h; exact absurd h (by decide)
        · intro h; omega
    · simp only [badge, if_neg (by omega : ¬ r.score ≥ 80), if_neg (by omega : ¬ r.score ≥ 60)]
      refine ⟨?_, ?_, by simp; omega⟩
      · constructor
        · intro h; exact absurd h (by decide)
        · intro h; omega
      · constructor
        · intro h; exact absurd h (by decide)
        · intro h; omega

/-- A result whose only relevant field is the score. -/
def resAt (s : Int) : ResultState :=
  { score := s, issues := [], recommendations := [], checklist := [], metrics := none }

/-- C3 witness: the band characterization at the boundary scores
59, 60, 79 and 80. -/
theorem badge_bands_witness :
    (badge (some (resAt 59)) = "Critical" ↔ (59 : Int) < 60) ∧
    (badge (some (resAt 60)) = "Needs work" ↔ (60 : Int) ≤ 60 ∧ (60 : Int) < 80) ∧
    (badge (some (resAt 79)) = "Needs work" ↔ (60 : Int) ≤ 79 ∧ (79 : Int) < 80) ∧
    (badge (some (resAt 80)) = "Good" ↔ (80 : Int) ≤ 80) :=
  ⟨(badge_bands (resAt 59)).2.2, (badge_bands (resAt 60)).2.1,
   (badge_bands (resAt 79)).2.1, (badge_bands (resAt 80)).1⟩

/-- C4 counterexample: a non-empty checklist with fewer than 20 entries
shows its own length as the denominator, not the fixed target 20. -/
theorem checklist_total_cex :
    [wFail].length < 20 ∧ checklistTotal [wFail] ≠ 20 := by
  decide

/-- C4 amended: the passed counter counts the entries with `pass = true`,
and the denominator is 20 exactly when the checklist is empty, the
entry count otherwise. -/
theorem checklist_progress (items : List ChecklistItem) :
    checklistPassedCount items = items.countP (fun item => item.pass) ∧
    (items = [] → checklistTotal items = 20) ∧
    (items ≠ [] → checklistTotal items = items.length) := by
  refine ⟨?_, ?_, ?_⟩
  · simp [checklistPassedCount, List.countP_eq_length_filter]
  · intro h; simp [checklistTotal, h]
  · intro h
    have : items.length ≠ 0 := by
      simpa [List.length_eq_zero] using h
    simp [checklistTotal, this]

/-- C4 witness: the amended rule at the empty list and at a one-entry
list. -/
theorem checklist_progress_witness :
    checklistPassedCount [wFail, wPass] = [wFail, wPass].countP (fun item => item.pass) ∧
    checklistTotal ([] : List ChecklistItem) = 20 ∧
    checklistTotal [wFail] = [wFail].length :=
  ⟨(checklist_progress [wFail, wPass]).1,
   (checklist_progress []).2.1 rfl,
   (checklist_progress [wFail]).2.2 (by decide)⟩

/-- C5: a 401 response clears the stored `seo_token` slot on every client
operation, the clearing itself always returns (it either keeps or drops
the token, never failing), and requests built after the clearing carry
no `Authorization` header. -/
theorem unauthorized_clears_token (body : Option Json) (tok : Option String) (newTok : String) :
    privilegedTokenAfter { status := 401, body := body } tok = none ∧
    registerTokenAfter { status := 401, body := body } tok = none ∧
    loginTokenAfter { status := 401, body := body } newTok tok = none ∧
    (∀ st t, clearTokenIfUnauthorized st t = t ∨ clearTokenIfUnauthorized st t = none) ∧
    (∀ h, h ∈ authHeaders none → h.1 ≠ "Authorization") := by
  refine ⟨?_, ?_, ?_, ?_, ?_⟩
  · simp [privilegedTokenAfter, respOk, clearTokenIfUnauthorized]
  · simp [registerTokenAfter, clearTokenIfUnauthorized]
  · simp [loginTokenAfter, respOk, clearTokenIfUnauthorized]
  · intro st t
    by_cases h : st = 401
    · exact Or.inr (by simp [clearTokenIfUnauthorized, h])
    · exact Or.inl (by simp [clearTokenIfUnauthorized, h])
  · intro h hh
    simp [authHeaders] at hh
    simp [hh]

/-- C5 witness: a concrete 401 on a privileged call drops a held token
and the next request has no `Authorization` header. -/
theorem unauthorized_clears_token_witness :
    privilegedTokenAfter { status := 401, body := none } (some "tok123") = none ∧
    (∀ h, h ∈ authHeaders none → h.1 ≠ "Authorization") :=
  ⟨(unauthorized_clears_token none (some "tok123") "new").1,
   (unauthorized_clears_token none (some "tok123") "new").2.2.2.2⟩

/-- The `detail` field of a parsed error body, when any. -/
def detailField (body : Option Json) : Option Json :=
  body.bind fun data => data.getField "detail"

/-- C6: the message of the error thrown on a non-success response is the
string `detail` when present, else the string `msg` of the first
element of a `detail` list, else the operation's fixed default (also
for absent or unparsable bodies). -/
theorem readError_spec (body : Option Json) (fb : String) :
    (∀ s, detailField body = some (Json.str s) → readError body fb = s) ∧
    (∀ first rest m, detailField body = some (Json.arr (first :: rest)) →
        first.getField "msg" = some (Json.str m) → readError body fb = m) ∧
    (∀ first rest, detailField body = some (Json.arr (first :: rest)) →
        (∀ m, first.getField "msg" ≠ some (Json.str m)) → readError body fb = fb) ∧
    ((∀ s, detailField body ≠ some (Json.str s)) →
     (∀ first rest, detailField body ≠ some (Json.arr (first :: rest))) →
     readError body fb = fb) ∧
    (body = none → readError body fb = fb) ∧
    (∀ st (payload : Project), respOk st = false →
        privilegedOutcome { status := st, body := body } fb payload =
          Except.error (readError body fb)) := by
  refine ⟨?_, ?_, ?_, ?_, ?_, ?_⟩
  · intro s hs
    cases body with
    | none => simp [detailField] at hs
    | some data =>
        have hs' : data.getField "detail" = some (Json.str s) := hs
        simp [readError, hs']
  · intro first rest m hs hm
    cases body with
    | none => simp [detailField] at hs
    | some data =>
        have hs' : data.getField "detail" = some (Json.arr (first :: rest)) := hs
        simp [readError, hs', hm]
  · intro first rest hs hnm
    cases body with
    | none => simp [detailField] at hs
    | some data =>
        have hs' : data.getField "detail" = some (Json.arr (first :: rest)) := hs
        cases hm : first.getField "msg" with
        | none => simp [readError, hs', hm]
        | some j =>
            cases j with
            | str m => exact absurd hm (hnm m)
            | num n => simp [readError, hs', hm]
            | bool b => simp [readError, hs', hm]
            | null => simp [readError, hs', hm]
            | arr l => simp [readError, hs', hm]
            | obj fs => simp [readError, hs', hm]
  · intro hns hna
    cases body with
    | none => simp [readError]
    | some data =>
        cases hd : data.getField "detail" with
        | none => simp [readError, hd]
        | some j =>
            cases j with
            | str s =>
                exact absurd (by simp [detailField, hd]) (hns s)
            | num n => simp [readError, hd]
            | bool b => simp [readError, hd]
            | null => simp [readError, hd]
            | arr l =>
                cases l with
                | nil => simp [readError, hd]
                | cons first rest =>
                    exact absurd (by simp [detailField, hd]) (hna first rest)
            | obj fs => simp [readError, hd]
  · intro h; subst h; simp [readError]
  · intro st payload h
    simp [privilegedOutcome, h]

/-- C6 witness: a body with a string `detail` yields that string. -/
theorem readError_spec_witness :
    readError (some (Json.obj [("detail", Json.str "Project quota exceeded")]))
        "Failed to create project" = "Project quota exceeded" :=
  (readError_spec (some (Json.obj [("detail", Json.str "Project quota exceeded")]))
      "Failed to create project").1 "Project quota exceeded" rfl

/-- C7: `register` resolves on a 409 even though the response is not ok,
throws on every other non-success status, and therefore a 409 from
`/auth/register` does not prevent the login call of `handleAuth` from
being issued. -/
theorem register_conflict_ok (body : Option Json) (pw : String) (env : AuthEnv) :
    registerOutcome { status := 409, body := body } = .ok () ∧
    (∀ st b, respOk st = false → st ≠ 409 →
        registerOutcome { status := st, body := b } =
          .error (readError b "Failed to register user")) ∧
    (8 ≤ pw.length → env.registerResp.status = 409 →
        (handleAuth pw env).loginIssued = true) := by
  refine ⟨?_, ?_, ?_⟩
  · simp [registerOutcome]
  · intro st b h hne
    simp [registerOutcome, h, hne]
  · intro hlen h409
    have hro : registerOutcome env.registerResp = .ok () := by
      simp [registerOutcome, h409]
    have hnl : ¬ pw.length < 8 := by omega
    simp only [handleAuth, if_neg hnl, hro]
    cases loginOutcome env.loginResp env.accessToken <;> rfl

/-- C7 witness: a concrete 409 register followed by a 200 login issues
the login call. -/
theorem register_conflict_ok_witness :
    registerOutcome { status := 409, body := none } = .ok () ∧
    (handleAuth "password1"
        { registerResp := { status := 409, body := none },
          loginResp := { status := 200, body := none },
          accessToken := "tok" }).loginIssued = true :=
  ⟨(register_conflict_ok none "password1"
      { registerResp := { status := 409, body := none },
        loginResp := { status := 200, body := none },
        accessToken := "tok" }).1,
   (register_conflict_ok none "password1"
      { registerResp := { status := 409, body := none },
        loginResp := { status := 200, body := none },
        accessToken := "tok" }).2.2 (by decide) rfl⟩

/-- C8: a checklist row is displayed `N/A` exactly when its lower-cased
value contains `"n/a"` or `"nepamatuota"` as a substring; otherwise it
is `PASS` when `pass` holds and `FAIL` when it does not. -/
theorem display_state_spec (item : ChecklistItem) :
    (displayState item = "N/A" ↔
       ("n/a".toList <:+: item.value.toLower.toList ∨
        "nepamatuota".toList <:+: item.value.toLower.toList)) ∧
    (displayState item = "PASS" ↔ isNotMeasured item.value = false ∧ item.pass = true) ∧
    (displayState item = "FAIL" ↔ isNotMeasured item.value = false ∧ item.pass = false) := by
  rw [← isNotMeasured_iff]
  by_cases hnm : isNotMeasured item.value
  · simp only [displayState, if_pos hnm]
    refine ⟨by simp [hnm], ?_, ?_⟩
    · constructor
      · intro h; exact absurd h (by decide)
      · rintro ⟨h, -⟩; exact absurd hnm (by simp [h])
    · constructor
      · intro h; exact absurd h (by decide)
      · rintro ⟨h, -⟩; exact absurd hnm (by simp [h])
  · have hnm' : isNotMeasured item.value = false := by
      simpa using hnm
    by_cases hp : item.pass
    · simp only [displayState, if_neg hnm, if_pos hp]
      refine ⟨?_, by simp [hnm', hp], ?_⟩
      · constructor
        · intro h; exact absurd h (by decide)
        · intro h; exact absurd h hnm
      · constructor
        · intro h; exact absurd h (by decide)
        · rintro ⟨-, h⟩; exact absurd hp (by simp [h])
    · have hp' : item.pass = false := by simpa using hp
      simp only [displayState, if_neg hnm, if_neg hp]
      refine ⟨?_, ?_, by simp [hnm', hp']⟩
      · constructor
        · intro h; exact absurd h (by decide)
        · intro h; exact absurd h hnm
      · constructor
        · intro h; exact absurd h (by decide)
        · rintro ⟨-, h⟩; exact absurd h (by simp [hp'])

/-- C8 witness: the display rule at a not-measured item. -/
theorem display_state_spec_witness :
    displayState wNa = "N/A" ↔
      ("n/a".toList <:+: wNa.value.toLower.toList ∨
       "nepamatuota".toList <:+: wNa.value.toLower.toList) :=
  (display_state_spec wNa).1

/-- C9: when `startAudit` itself answers `"failed"`, no `getAuditStatus`
poll and no result fetch happen and the user sees exactly the fixed
failure message; and in general a terminal status stops the polling
loop with zero further calls. -/
theorem failed_start_no_polling (env : Env) (p : Project) (s : ScheduleItem) (aid : String)
    (hp : env.createProjectResp = .ok p) (hs : env.createScheduleResp = .ok s)
    (ha : env.startAuditResp = .ok { audit_id := aid, status := "failed" }) :
    runAnalysis env = some { statuses := ["creating", "failed"], error := failureMessage,
                             result := none, auditId := aid, pollCalls := 0,
                             resultFetched := false } ∧
    (∀ cur script, cur ≠ "queued" → cur ≠ "running" →
        pollLoop cur script = some (.done cur [] 0)) := by
  have hterm : ∀ cur script, cur ≠ "queued" → cur ≠ "running" →
      pollLoop cur script = some (.done cur [] 0) := by
    intro cur script h1 h2
    rw [pollLoop.eq_def]
    simp [h1, h2]
  refine ⟨?_, hterm⟩
  have hpl := hterm "failed" env.statusScript (by decide) (by decide)
  simp [runAnalysis, hp, hs, ha, hpl]

/-- The C9 witness environment: `startAudit` answers `"failed"`. -/
def envFailedStart : Env :=
  { createProjectResp := .ok projW
    createScheduleResp := .ok schedW
    startAuditResp := .ok { audit_id := "a1", status := "failed" }
    statusScript := []
    resultsResp := .ok rawC2 }

/-- C9 witness: the failed-start outcome on a concrete environment. -/
theorem failed_start_no_polling_witness :
    runAnalysis envFailedStart =
      some { statuses := ["creating", "failed"], error := failureMessage,
             result := none, auditId := "a1", pollCalls := 0, resultFetched := false } :=
  (failed_start_no_polling envFailedStart projW schedW "a1" rfl rfl rfl).1

/-- C10: any status other than `"queued"`/`"running"` — including status
strings outside the documented set — exits the polling loop at once
(also when it arrives from a poll, which then counts as the last call),
and when it is not `"completed"` the run ends with the fixed failure
message, no fetched result and no published result. -/
theorem unknown_status_terminal (st aid : String)
    (script : List (Except String AuditStatusResp))
    (env : Env) (p : Project) (s : ScheduleItem)
    (h1 : st ≠ "queued") (h2 : st ≠ "running")
    (hp : env.createProjectResp = .ok p) (hsched : env.createScheduleResp = .ok s)
    (ha : env.startAuditResp = .ok { audit_id := aid, status := st }) :
    pollLoop st script = some (.done st [] 0) ∧
    (∀ prev rest, (prev = "queued" ∨ prev = "running") →
        pollLoop prev (.ok { audit_id := aid, status := st } :: rest) =
          some (.done st [st] 1)) ∧
    (st ≠ "completed" →
        runAnalysis env = some { statuses := ["creating", st], error := failureMessage,
                                 result := none, auditId := aid, pollCalls := 0,
                                 resultFetched := false }) := by
  have hstop : ∀ sc : List (Except String AuditStatusResp),
      pollLoop st sc = some (.done st [] 0) := by
    intro sc
    rw [pollLoop.eq_def]
    simp [h1, h2]
  refine ⟨hstop script, ?_, ?_⟩
  · intro prev rest hprev
    have hcond : (prev = "queued" || prev = "running") = true := by
      rcases hprev with h | h <;> simp [h]
    rw [pollLoop.eq_def]
    simp only [hcond, if_true, if_pos]
    rw [hstop rest]
  · intro hnc
    simp [runAnalysis, hp, hsched, ha, hstop env.statusScript, hnc]

/-- The C10 witness environment: `startAudit` answers an undocumented
status string. -/
def envUnknownStatus : Env :=
  { createProjectResp := .ok projW
    createScheduleResp := .ok schedW
    startAuditResp := .ok { audit_id := "a1", status := "exploded" }
    statusScript := []
    resultsResp := .ok rawC2 }

/-- C10 witness: a concrete undocumented status exits at once and ends in
the fixed failure message. -/
theorem unknown_status_terminal_witness :
    pollLoop "exploded" [] = some (.done "exploded" [] 0) ∧
    runAnalysis envUnknownStatus =
      some { statuses := ["creating", "exploded"], error := failureMessage,
             result := none, auditId := "a1", pollCalls := 0, resultFetched := false } :=
  ⟨(unknown_status_terminal "exploded" "a1" [] envUnknownStatus projW schedW
      (by decide) (by decide) rfl rfl rfl).1,
   (unknown_status_terminal "exploded" "a1" [] envUnknownStatus projW schedW
      (by decide) (by decide) rfl rfl rfl).2.2 (by decide)⟩

end SeoAnalyze
